import Mathlib

/-!
Verification of the restic-backup-toolkit provisioning script
(`setup_restic.py`).  The script is a four-stage idempotent pipeline:
install the restic binary, set up configuration files, generate a backup
shell script from a template, and register a cron entry.  This file embeds
the configuration data model, the four tasks (as effect-trace functions),
the generated script template, and the runtime semantics of the generated
script under `set -e`, and proves the specification claims about them.
-/

/-! ## String utilities

Python's `needle in haystack` operator (substring containment) is modelled
by `isSubL` on the underlying character lists, and `str.split`-style line
splitting (used to talk about crontab entries) by `splitLinesL`. -/

/-- Boolean prefix test on character lists. -/
def isPrefB : List Char → List Char → Bool
  | [], _ => true
  | _ :: _, [] => false
  | a :: as, b :: bs => a == b && isPrefB as bs

/-- Boolean substring test: `isSubL needle hay` is true iff `needle`
occurs contiguously inside `hay`.  Model of Python's `in` on strings. -/
def isSubL (needle : List Char) : List Char → Bool
  | [] => needle.isEmpty
  | c :: rest => isPrefB needle (c :: rest) || isSubL needle rest

/-- Model of Python's `needle in hay` for strings. -/
def strContains (hay needle : String) : Bool :=
  isSubL needle.data hay.data

theorem isPrefB_self_append (n b : List Char) : isPrefB n (n ++ b) = true := by
  induction n with
  | nil => simp [isPrefB]
  | cons a as ih => simp [isPrefB, ih]

theorem isSubL_self_append (n b : List Char) : isSubL n (n ++ b) = true := by
  cases n with
  | nil =>
    induction b with
    | nil => simp [isSubL]
    | cons c rest ih => simp [isSubL, isPrefB]
  | cons a as =>
    have h : isPrefB (a :: as) (a :: (as ++ b)) = true := by
      rw [← List.cons_append]
      exact isPrefB_self_append _ _
    simp [isSubL, h]

/-- A list that literally contains `n` as a factor passes the substring
test. -/
theorem isSubL_factor (n a b : List Char) : isSubL n (a ++ (n ++ b)) = true := by
  induction a with
  | nil => simpa using isSubL_self_append n b
  | cons c a' ih =>
    cases h : isPrefB n (c :: (a' ++ (n ++ b))) with
    | true => simp [isSubL, h]
    | false => simp [isSubL, h, ih]

/-! ## Line splitting (used to interpret crontab text as entries) -/

/-- Splits a character list at newline characters; mirrors Python's
`str.split("\n")` (always returns at least one segment, a trailing
newline yields a final empty segment). -/
def splitLinesL : List Char → List (List Char)
  | [] => [[]]
  | c :: rest =>
    if c = '\n' then [] :: splitLinesL rest
    else
      match splitLinesL rest with
      | [] => [[c]]
      | l :: ls => (c :: l) :: ls

/-- All segments but the last. -/
def initSegs : List (List Char) → List (List Char)
  | [] => []
  | [_] => []
  | l :: l' :: ls => l :: initSegs (l' :: ls)

/-- The last segment (empty list if none). -/
def lastSeg : List (List Char) → List Char
  | [] => []
  | [l] => l
  | _ :: l' :: ls => lastSeg (l' :: ls)

/-- The first segment (empty list if none). -/
def hdSeg : List (List Char) → List Char
  | [] => []
  | l :: _ => l

/-- The nonempty lines of a string: the crontab entries of a crontab
text, in order. -/
def entriesOf (s : String) : List (List Char) :=
  (splitLinesL s.data).filter (fun l => !l.isEmpty)

theorem splitLinesL_ne_nil (x : List Char) : splitLinesL x ≠ [] := by
  cases x with
  | nil => simp [splitLinesL]
  | cons c rest =>
    simp only [splitLinesL]
    split
    · simp
    · split
      · simp
      · simp

theorem initSegs_cons_cons (x y : List Char) (l : List (List Char)) :
    initSegs (x :: y :: l) = x :: initSegs (y :: l) := rfl

theorem lastSeg_cons_cons (x y : List Char) (l : List (List Char)) :
    lastSeg (x :: y :: l) = lastSeg (y :: l) := rfl

theorem splitLinesL_cons_nl (rest : List Char) :
    splitLinesL ('\n' :: rest) = [] :: splitLinesL rest := by
  simp [splitLinesL]

theorem splitLinesL_cons_ne (c : Char) (hc : c ≠ '\n') (rest l : List Char)
    (ls : List (List Char)) (h : splitLinesL rest = l :: ls) :
    splitLinesL (c :: rest) = (c :: l) :: ls := by
  simp [splitLinesL, hc, h]

theorem splitLinesL_append (a b : List Char) :
    splitLinesL (a ++ b) =
      initSegs (splitLinesL a) ++
        (lastSeg (splitLinesL a) ++ hdSeg (splitLinesL b)) :: (splitLinesL b).tail := by
  induction a with
  | nil =>
    obtain ⟨x, xs, hx⟩ := List.exists_cons_of_ne_nil (splitLinesL_ne_nil b)
    simp [splitLinesL, initSegs, lastSeg, hdSeg, hx]
  | cons c a' ih =>
    obtain ⟨y, ys, hy⟩ := List.exists_cons_of_ne_nil (splitLinesL_ne_nil a')
    rw [hy] at ih
    by_cases hc : c = '\n'
    · subst hc
      rw [List.cons_append, splitLinesL_cons_nl, splitLinesL_cons_nl, hy, ih,
        initSegs_cons_cons, lastSeg_cons_cons]
      simp
    · cases ys with
      | nil =>
        simp only [initSegs, lastSeg, List.nil_append] at ih
        rw [List.cons_append, splitLinesL_cons_ne c hc _ _ _ ih,
          splitLinesL_cons_ne c hc _ _ _ hy]
        simp [initSegs, lastSeg]
      | cons y' ys' =>
        simp only [initSegs_cons_cons, lastSeg_cons_cons] at ih
        rw [List.cons_append, splitLinesL_cons_ne c hc _ _ _ ih,
          splitLinesL_cons_ne c hc _ _ _ hy]
        simp [initSegs_cons_cons, lastSeg_cons_cons]

/-- A chunk of text with no newline inside, followed by a newline, forms
exactly one segment. -/
theorem splitLinesL_no_nl (xs ys : List Char) (h : ∀ c ∈ xs, c ≠ '\n') :
    splitLinesL (xs ++ '\n' :: ys) = xs :: splitLinesL ys := by
  induction xs with
  | nil => simp [splitLinesL_cons_nl]
  | cons c xs' ih =>
    have hc : c ≠ '\n' := h c (by simp)
    have ih' := ih (fun d hd => h d (by simp [hd]))
    rw [List.cons_append, splitLinesL_cons_ne c hc _ _ _ ih']

theorem lastSeg_append_cons (u : List (List Char)) (x : List Char)
    (xs : List (List Char)) : lastSeg (u ++ x :: xs) = lastSeg (x :: xs) := by
  induction u with
  | nil => rfl
  | cons v u' ih =>
    cases u' with
    | nil => simp [lastSeg_cons_cons, ih]
    | cons v' u'' => simp only [List.cons_append] at ih ⊢; rw [lastSeg_cons_cons, ih]

/-- Any nonempty segment list splits into its initial segments and its
last segment. -/
theorem segs_decomp (l : List (List Char)) (h : l ≠ []) :
    l = initSegs l ++ [lastSeg l] := by
  induction l with
  | nil => exact absurd rfl h
  | cons x xs ih =>
    cases xs with
    | nil => rfl
    | cons x' xs' =>
      rw [initSegs_cons_cons, lastSeg_cons_cons, List.cons_append]
      exact congrArg (x :: ·) (ih (by simp))

/-- A newline-terminated text splits with an empty last segment. -/
theorem lastSeg_splitLinesL_nl_terminated (o : List Char) :
    lastSeg (splitLinesL (o ++ ['\n'])) = [] := by
  rw [splitLinesL_append]
  rw [lastSeg_append_cons]
  have : splitLinesL ['\n'] = [[], []] := by simp [splitLinesL_cons_nl, splitLinesL]
  simp [this, hdSeg, lastSeg]

/-! ## Data model

`Config` mirrors the parsed `config.json` dictionary: a required key that
may be absent is an `Option` (`none` models the key missing, in which case
Python raises `KeyError` at the point of first access, terminating the
process with exit status 1).  `source_paths` is the insertion-ordered
mapping of service name to path. -/

structure Config where
  backup_password : Option String
  exclude_paths : Option (List String)
  repository : Option String
  source_paths : Option (List (String × String))
  restic_version : Option String := none
  healthcheck_url : Option String := none
  cron_schedule : Option String := none
deriving DecidableEq

/-- Host and external-world state consumed by the tasks: the home
directory, the machine's nodename, whether `restic` resolves on `PATH`,
the outcomes of the fallible installer steps, the state of `~/.bashrc`,
and the current crontab text (empty when `crontab -l` fails). -/
structure Env where
  home : String
  nodename : String
  resticInstalled : Bool
  downloadOk : Bool
  tempLeftOnFail : Bool
  decompressOk : Bool
  mvOk : Bool
  chownOk : Bool
  bashrcExists : Bool
  bashrcContent : String
  cronTable : String
deriving DecidableEq

/-- Filesystem / system side effects performed by the tasks, in program
order. -/
inductive Eff where
  | mkdirp (path : String)
  | createFile (path : String)
  | writeFile (path : String) (content : String)
  | chmodFile (path : String) (mode : Nat)
  | appendFile (path : String) (content : String)
  | download (url : String) (dest : String)
  | writeBin (path : String)
  | sudoMv (src dst : String)
  | sudoChown (owner : String) (path : String)
  | removeFile (path : String)
  | setCrontab (content : String)
deriving DecidableEq

/-! Fixed paths (`HOME` is threaded as a parameter, the rest are the
module constants of the script). -/

def restic_dir (home : String) : String := home ++ "/.restic"

def bin_dir (home : String) : String := home ++ "/bin"

def passwd_file (home : String) : String := restic_dir home ++ "/.restic_passwd"

def exclude_file (home : String) : String := restic_dir home ++ "/.restic_exclude"

def script_path (home : String) : String := bin_dir home ++ "/restic-custom-backup"

def bashrc_path (home : String) : String := home ++ "/.bashrc"

def temp_bz2 : String := "/tmp/restic.bz2"

def restic_bin : String := "/usr/local/bin/restic"

def restic_url (version : String) : String :=
  "https://github.com/restic/restic/releases/download/v" ++ version ++
    "/restic_" ++ version ++ "_linux_amd64.bz2"

/-! ## Task: install (`task_install`)

The function returns the effect trace and `some code` when the process
exits (via `sys.exit(1)` in the `except` handler).  The `finally` block
removes `/tmp/restic.bz2` when it exists, on success and failure alike;
a download that fails may or may not have left a partial file behind
(`env.tempLeftOnFail`). -/

def task_install (config : Config) (env : Env) : List Eff × Option Nat :=
  -- `if check_command("restic"): return` — skip when already resolvable
  if env.resticInstalled then ([], none)
  else
    let version := config.restic_version.getD "0.18.1"
    let url := restic_url version
    if env.downloadOk = false then
      -- urlretrieve raised; finally removes the temp file if present
      if env.tempLeftOnFail then
        ([.download url temp_bz2, .removeFile temp_bz2], some 1)
      else ([], some 1)
    else
      if env.decompressOk = false then
        -- bz2.decompress raised after /tmp/restic was opened for writing
        ([.download url temp_bz2, .createFile "/tmp/restic",
          .removeFile temp_bz2], some 1)
      else
        if env.mvOk = false then
          -- `sudo mv` returned nonzero: check_call raised
          ([.download url temp_bz2, .createFile "/tmp/restic",
            .writeBin "/tmp/restic", .chmodFile "/tmp/restic" 0o755,
            .removeFile temp_bz2], some 1)
        else
          if env.chownOk = false then
            -- `sudo chown` returned nonzero: check_call raised
            ([.download url temp_bz2, .createFile "/tmp/restic",
              .writeBin "/tmp/restic", .chmodFile "/tmp/restic" 0o755,
              .sudoMv "/tmp/restic" restic_bin, .removeFile temp_bz2], some 1)
          else
            ([.download url temp_bz2, .createFile "/tmp/restic",
              .writeBin "/tmp/restic", .chmodFile "/tmp/restic" 0o755,
              .sudoMv "/tmp/restic" restic_bin,
              .sudoChown "root:root" restic_bin, .removeFile temp_bz2], none)

/-! ## Task: environment setup (`task_setup`) -/

def export_line : String := "export PATH=$PATH:$HOME/bin"

/-- The `.bashrc` idempotence check of `task_setup`: append only when
neither the exact export line nor the substring `$HOME/bin` occurs. -/
def bashrc_needs_line (content : String) : Bool :=
  !strContains content export_line && !strContains content "$HOME/bin"

def bashrc_appended_text : String := "\n" ++ export_line ++ "\n"

/-- The content of `.bashrc` after `task_setup` ran on it. -/
def bashrc_after (content : String) : String :=
  if bashrc_needs_line content then content ++ bashrc_appended_text
  else content

/-- Effect trace of `task_setup`.  `open(passwd_file, 'w')` creates and
truncates the file before `config['backup_password']` is evaluated, so a
missing key raises `KeyError` (process exit 1) with the file already
created; likewise for the exclude file. -/
def task_setup (config : Config) (env : Env) : List Eff × Option Nat :=
  let e0 := [Eff.mkdirp (restic_dir env.home), Eff.mkdirp (bin_dir env.home),
             Eff.createFile (passwd_file env.home)]
  match config.backup_password with
  | none => (e0, some 1)
  | some pw =>
    let e1 := e0 ++ [Eff.writeFile (passwd_file env.home) pw,
                     Eff.chmodFile (passwd_file env.home) 0o600,
                     Eff.createFile (exclude_file env.home)]
    match config.exclude_paths with
    | none => (e1, some 1)
    | some xs =>
      let e2 := e1 ++ [Eff.writeFile (exclude_file env.home)
                         (String.intercalate "\n" xs)]
      if env.bashrcExists && bashrc_needs_line env.bashrcContent then
        (e2 ++ [Eff.appendFile (bashrc_path env.home) bashrc_appended_text], none)
      else (e2, none)

/-! ## Task: backup-script generation (`task_backup_script`)

The Python f-strings use backslash-newline continuations, which string
literals resolve to nothing: the multi-line restic invocations become
single lines whose arguments are separated by five spaces (one before the
backslash plus the four-space indent of the next source line). -/

/-- One per-service backup stanza appended to `sources_block`. -/
def backup_stanza (service path : String) : String :=
  "\n\necho \"Backing up " ++ service ++ ": " ++ path ++
  "\"\n/usr/local/bin/restic -p \"$RESTIC_PASSWD\" -r \"$BACKUP_REPO\"     --host \"$HOST_TAG\"     --tag \"" ++
  service ++
  "\"     --exclude-caches     --exclude-file=\"$RESTIC_EXCLUDE_FILE\"     backup \"" ++
  path ++
  "\"\n\necho \"" ++ service ++
  " backup complete: $(/usr/local/bin/restic -p \"$RESTIC_PASSWD\" -r \"$BACKUP_REPO\" stats --host \"$HOST_TAG\" --tag \"" ++
  service ++ "\")\"\n"

/-- One per-service retention stanza appended to `forget_block`. -/
def forget_stanza (service : String) : String :=
  "\n\n/usr/local/bin/restic -p \"$RESTIC_PASSWD\" -r \"$BACKUP_REPO\"     forget     --host \"$HOST_TAG\"     --tag \"" ++
  service ++
  "\"     --group-by host,tags     $KEEP_OPTIONS     --cleanup-cache || true\n"

/-- `sources_block`: the for-loop accumulating one backup stanza per
`source_paths` entry. -/
def sources_block (l : List (String × String)) : String :=
  l.foldl (fun acc sp => acc ++ backup_stanza sp.1 sp.2) ""

/-- `forget_block`: the for-loop accumulating one retention stanza per
`source_paths` entry. -/
def forget_block (l : List (String × String)) : String :=
  l.foldl (fun acc sp => acc ++ forget_stanza sp.1) ""

/-- The generated script up to and including the `# Backup Sources` line
(fixed preamble: strict mode, configuration variables, log redirect,
start banner and webhook ping, init-if-absent, unlock). -/
def script_header (repository healthcheck home nodename : String) : String :=
  "#!/bin/bash\nset -euo pipefail\n\n# Configuration\nRESTIC_PASSWD=\"" ++
  restic_dir home ++
  "/.restic_passwd\"\nRESTIC_EXCLUDE_FILE=\"" ++ restic_dir home ++
  "/.restic_exclude\"\nBACKUP_REPO=\"" ++ repository ++
  "\"\nKEEP_OPTIONS=\"--keep-hourly 2 --keep-daily 6 --keep-weekly 3 --keep-monthly 1\"\nHOST_TAG=\"" ++
  nodename ++ "\"\nHEALTHCHECK_URL=\"" ++ healthcheck ++
  "\"\n\nFAILURE=0\nLOGFILE=\"/tmp/restic-backup.log\"\n\nexec >> \"$LOGFILE\" 2>&1\n\necho \"=== Backup started: $(date) on $HOST_TAG ===\"\nif [ -n \"$HEALTHCHECK_URL\" ]; then\n    curl -fsS --retry 3 \"$HEALTHCHECK_URL/start\" >/dev/null 2>&1 || true\nfi\n\n# Initialize repository if it doesn\x27t exist\nif ! /usr/local/bin/restic -p \"$RESTIC_PASSWD\" -r \"$BACKUP_REPO\" cat config >/dev/null 2>&1; then\n    echo \"Initializing restic repository at $BACKUP_REPO\"\n    /usr/local/bin/restic -p \"$RESTIC_PASSWD\" -r \"$BACKUP_REPO\" init\nfi\n\n# Unlock stale locks\n/usr/local/bin/restic -p \"$RESTIC_PASSWD\" -r \"$BACKUP_REPO\" unlock || true\n\n# Backup Sources\n"

/-- The text between the interpolated `sources_block` and
`forget_block`. -/
def script_mid : String := "\n\n# Forget/Prune\n"

/-- The generated script after `forget_block`: the `$?` test, optional
completion webhook, finish banner, `exit $FAILURE`. -/
def script_footer : String :=
  "\n\n# Ping healthcheck\nif [ $? -eq 0 ]; then\n    if [ -n \"$HEALTHCHECK_URL\" ]; then\n        curl -fsS --retry 3 \"$HEALTHCHECK_URL\" >/dev/null 2>&1 || true\n    fi\nelse\n    FAILURE=1\nfi\n\necho \"=== Backup finished: $(date) ===\"\nexit $FAILURE\n"

/-- `script_content`: the full generated script text as a function of the
configuration values it interpolates. -/
def script_content (repository healthcheck home nodename : String)
    (l : List (String × String)) : String :=
  script_header repository healthcheck home nodename ++ sources_block l ++
    script_mid ++ forget_block l ++ script_footer

/-- The script text `task_backup_script` writes, `none` when a required
key is missing (the loop reads `config['source_paths']` first, then the
f-string reads `config['repository']`; either missing key raises before
the output file is opened). -/
def generated_script (config : Config) (env : Env) : Option String :=
  match config.source_paths with
  | none => none
  | some l =>
    match config.repository with
    | none => none
    | some repo =>
      some (script_content repo (config.healthcheck_url.getD "")
              env.home env.nodename l)

def task_backup_script (config : Config) (env : Env) : List Eff × Option Nat :=
  match generated_script config env with
  | none => ([], some 1)
  | some s =>
    ([Eff.createFile (script_path env.home),
      Eff.writeFile (script_path env.home) s,
      Eff.chmodFile (script_path env.home) 0o755], none)

/-! ## Task: cron registration (`task_cron`) -/

def default_schedule : String := "0 12 * * *"

/-- `job_command = str(HOME / "bin" / "restic-custom-backup")`. -/
def job_command (home : String) : String :=
  bin_dir home ++ "/restic-custom-backup"

def new_cron_line (schedule job : String) : String :=
  schedule ++ " " ++ job ++ "\n"

/-- The crontab text after `task_cron`: no-op when the script path
already occurs anywhere in the current table, otherwise the table with
the new line appended. -/
def new_crontab (home : String) (cron_schedule : Option String)
    (current_cron : String) : String :=
  let schedule := cron_schedule.getD default_schedule
  if strContains current_cron (job_command home) then current_cron
  else current_cron ++ new_cron_line schedule (job_command home)

def task_cron (config : Config) (env : Env) : List Eff × Option Nat :=
  if strContains env.cronTable (job_command env.home) then ([], none)
  else
    ([Eff.setCrontab (new_crontab env.home config.cron_schedule env.cronTable)],
     none)

/-! ## The whole pipeline (`main`) -/

/-- `main()` after `load_config`: the four tasks in order, each later
task running only when the earlier ones did not terminate the process.
Returns the accumulated effect trace and the exit status (`none` = the
run completed, process exit 0). -/
def runMain (config : Config) (env : Env) : List Eff × Option Nat :=
  match task_install config env with
  | (e1, some c) => (e1, some c)
  | (e1, none) =>
    match task_setup config env with
    | (e2, some c) => (e1 ++ e2, some c)
    | (e2, none) =>
      match task_backup_script config env with
      | (e3, some c) => (e1 ++ e2 ++ e3, some c)
      | (e3, none) =>
        match task_cron config env with
        | (e4, _) => (e1 ++ e2 ++ e3 ++ e4, none)

/-! ## Observations on effect traces -/

/-- Does an effect write file data somewhere? -/
def isFileWrite : Eff → Bool
  | .createFile _ => true
  | .writeFile _ _ => true
  | .appendFile _ _ => true
  | .download _ _ => true
  | .writeBin _ => true
  | _ => false

/-- View of one file (content and permission bits) as the effect trace
acts on it.  `createFile` models `open(_, 'w')`: it truncates, keeping
the mode of an existing file and creating with the process-default mode
`dflt` otherwise. -/
structure FileView where
  content : Option String
  mode : Option Nat
deriving DecidableEq

def applyEffAt (p : String) (dflt : Nat) (st : FileView) : Eff → FileView
  | .createFile q =>
    if q = p then { content := some "", mode := some (st.mode.getD dflt) } else st
  | .writeFile q s => if q = p then { st with content := some s } else st
  | .appendFile q s =>
    if q = p then { st with content := some (st.content.getD "" ++ s) } else st
  | .chmodFile q m => if q = p then { st with mode := some m } else st
  | .removeFile q => if q = p then { content := none, mode := none } else st
  | _ => st

def runEffsAt (p : String) (dflt : Nat) (st : FileView) (effs : List Eff) :
    FileView :=
  effs.foldl (applyEffAt p dflt) st

/-- Whether `/tmp/restic.bz2` exists after the trace, starting from
`init`. -/
def temp_bz2_present (init : Bool) (effs : List Eff) : Bool :=
  effs.foldl (fun b e =>
    match e with
    | .download _ d => if d = temp_bz2 then true else b
    | .removeFile q => if q = temp_bz2 then false else b
    | _ => b) init

/-! ## Runtime semantics of the generated script

The generated script starts with `set -euo pipefail`, so any unguarded
command that exits nonzero aborts the whole script immediately with that
command's exit status.  Guarded commands (`... || true`) never abort and
leave `$?` equal to 0.  The oracle `ScriptEnv` supplies each external
command's exit status. -/

structure ScriptEnv where
  /-- `restic cat config` succeeds (repository already initialized). -/
  repoInitialized : Bool
  /-- exit status of `restic init` (an unguarded command). -/
  initExit : Nat
  /-- exit status of `restic backup` for a given service tag
  (unguarded: under `set -e` a nonzero status aborts the script). -/
  backupExit : String → Nat
  /-- exit status of `restic forget` for a given service tag (guarded by
  `|| true`, so it can never abort the script nor leave `$?` nonzero). -/
  forgetExit : String → Nat

/-- Runs the per-service backup stanzas in order under `set -e`:
returns the list of services whose backup was attempted and `some code`
if the script aborted at a failing backup command. -/
def runBackups (env : ScriptEnv) : List (String × String) → List String × Option Nat
  | [] => ([], none)
  | (s, _) :: rest =>
    if env.backupExit s ≠ 0 then ([s], some (env.backupExit s))
    else
      let r := runBackups env rest
      (s :: r.1, r.2)

/-- Runs the generated script: returns (services whose backup stanza
ran, services whose forget stanza ran, the script's exit status).

Execution follows the template: the preamble's echo/webhook steps always
succeed (`curl` is guarded); if the repository is not initialized,
`restic init` runs unguarded and a nonzero status aborts; `unlock` is
guarded; then the backup stanzas (unguarded, abort on failure); then the
forget stanzas (all guarded, all run); the final `if [ $? -eq 0 ]` reads
the status of the last guarded command, which is always 0, so `FAILURE`
is never set and `exit $FAILURE` exits 0. -/
def runScript (l : List (String × String)) (env : ScriptEnv) :
    List String × List String × Nat :=
  if env.repoInitialized = false && env.initExit != 0 then ([], [], env.initExit)
  else
    match runBackups env l with
    | (att, some c) => (att, [], c)
    | (att, none) => (att, l.map Prod.fst, 0)

/-! ## Generic helpers -/

theorem strExt (b c : String) (h : b.data = c.data) : b = c := by
  cases b; cases c; exact congrArg String.mk h

theorem append_ne_of_data_ne (a : String) {b c : String}
    (h : b.data ≠ c.data) : a ++ b ≠ a ++ c := by
  intro he
  apply h
  have h2 := congrArg String.data he
  rw [String.data_append, String.data_append] at h2
  exact List.append_cancel_left h2

/-- `strContains` holds of any string whose text decomposes around the
needle. -/
theorem strContains_of_data_decomp (hay needle : String) (a b : List Char)
    (h : hay.data = a ++ (needle.data ++ b)) : strContains hay needle = true := by
  rw [strContains, h]
  exact isSubL_factor _ _ _

/-- Concatenation of a list of strings. -/
def strJoin : List String → String
  | [] => ""
  | s :: rest => s ++ strJoin rest

theorem foldl_append_eq_strJoin {α : Type} (f : α → String) (l : List α)
    (acc : String) :
    l.foldl (fun a x => a ++ f x) acc = acc ++ strJoin (l.map f) := by
  induction l generalizing acc with
  | nil => simp [strJoin, String.append_empty]
  | cons x xs ih => simp [strJoin, ih, String.append_assoc]

/-! ## Shared concrete sample inputs -/

/-- The example configuration of the specification. -/
def sampleConfig : Config :=
  { backup_password := some "secret", exclude_paths := some ["*.tmp"],
    repository := some "/mnt/backup/repo",
    source_paths := some [("db", "/var/lib/db"), ("web", "/srv/web")] }

def sampleEnv : Env :=
  { home := "/root", nodename := "host1", resticInstalled := true,
    downloadOk := true, tempLeftOnFail := false, decompressOk := true,
    mvOk := true, chownOk := true, bashrcExists := false, bashrcContent := "",
    cronTable := "" }

/-! ## Task exit-status facts -/

theorem task_install_exit_cases (config : Config) (env : Env) :
    (task_install config env).2 = none ∨ (task_install config env).2 = some 1 := by
  obtain ⟨home, node, ri, dl, pt, dc, mv, co, be, bc, ct⟩ := env
  cases ri <;> cases dl <;> cases pt <;> cases dc <;> cases mv <;> cases co <;>
    simp [task_install]

theorem runMain_of_install_exit (config : Config) (env : Env) (e : List Eff)
    (c : Nat) (h : task_install config env = (e, some c)) :
    runMain config env = (e, some c) := by
  simp [runMain, h]

/-- Claim C6: if the backup binary is already resolvable on the search
path, the installer performs no side effect at all and does not
terminate the process. -/
theorem c6_install_skip_no_side_effect (config : Config) (env : Env)
    (h : env.resticInstalled = true) : task_install config env = ([], none) := by
  simp [task_install, h]

/-- Witness for C6 at a concrete environment with restic installed. -/
theorem c6_install_skip_no_side_effect_witness :
    task_install sampleConfig sampleEnv = ([], none) :=
  c6_install_skip_no_side_effect sampleConfig sampleEnv rfl

/-- Claim C7: when restic is not installed, the temporary compressed
artifact never survives the installer (the `finally` cleanup runs on
success and failure alike), and if any installer step fails the whole
process exits with status 1. -/
theorem c7_install_failure_exit_cleanup (config : Config) (env : Env)
    (h : env.resticInstalled = false) :
    temp_bz2_present false (task_install config env).1 = false ∧
    ((env.downloadOk = false ∨ env.decompressOk = false ∨ env.mvOk = false ∨
      env.chownOk = false) → (runMain config env).2 = some 1) := by
  obtain ⟨home, node, ri, dl, pt, dc, mv, co, be, bc, ct⟩ := env
  simp only at h
  subst h
  cases dl <;> cases pt <;> cases dc <;> cases mv <;> cases co <;>
    constructor <;>
    simp [task_install, temp_bz2_present, runMain, temp_bz2]

/-- An environment in which restic is absent and the download step
fails. -/
def envDownloadFail : Env :=
  { sampleEnv with resticInstalled := false, downloadOk := false }

/-- Witness for C7: with a failing download, the process exits with
status 1 and no temporary artifact remains. -/
theorem c7_install_failure_exit_cleanup_witness :
    temp_bz2_present false (task_install sampleConfig envDownloadFail).1 = false ∧
    (runMain sampleConfig envDownloadFail).2 = some 1 :=
  ⟨(c7_install_failure_exit_cleanup sampleConfig envDownloadFail rfl).1,
   (c7_install_failure_exit_cleanup sampleConfig envDownloadFail rfl).2 (Or.inl rfl)⟩

/-- Claim C5: the generated script text is a deterministic function of
the configuration together with the host identity (home directory and
nodename): two runs in worlds that agree on those — whatever the rest of
the world state — produce byte-identical script content. -/
theorem c5_script_generation_deterministic (config : Config) (env1 env2 : Env)
    (hh : env1.home = env2.home) (hn : env1.nodename = env2.nodename)
    (_hbp : config.backup_password.isSome = true)
    (_hex : config.exclude_paths.isSome = true)
    (hr : config.repository.isSome = true)
    (hsp : config.source_paths.isSome = true) :
    ∃ s, generated_script config env1 = some s ∧
      generated_script config env2 = some s := by
  obtain ⟨repo, hrepo⟩ := Option.isSome_iff_exists.mp hr
  obtain ⟨l, hl⟩ := Option.isSome_iff_exists.mp hsp
  refine ⟨script_content repo (config.healthcheck_url.getD "")
    env2.home env2.nodename l, ?_, ?_⟩
  · simp [generated_script, hrepo, hl, hh, hn]
  · simp [generated_script, hrepo, hl]

/-- A second world: same configuration and host identity as `sampleEnv`,
every other world component different. -/
def sampleEnvOther : Env :=
  { home := "/root", nodename := "host1", resticInstalled := false,
    downloadOk := false, tempLeftOnFail := true, decompressOk := false,
    mvOk := false, chownOk := false, bashrcExists := true,
    bashrcContent := "# bashrc", cronTable := "0 1 * * * /usr/bin/uptime\n" }

/-- Witness for C5 at two concretely different worlds sharing
configuration and host identity. -/
theorem c5_script_generation_deterministic_witness :
    ∃ s, generated_script sampleConfig sampleEnv = some s ∧
      generated_script sampleConfig sampleEnvOther = some s :=
  c5_script_generation_deterministic sampleConfig sampleEnv sampleEnvOther
    rfl rfl rfl rfl rfl rfl

/-! ## C8: password file state after setup -/

theorem exclude_ne_passwd (home : String) :
    exclude_file home ≠ passwd_file home := by
  unfold exclude_file passwd_file
  exact append_ne_of_data_ne (restic_dir home) (by decide)

theorem bashrc_ne_passwd (home : String) :
    bashrc_path home ≠ passwd_file home := by
  unfold bashrc_path passwd_file restic_dir
  rw [String.append_assoc]
  exact append_ne_of_data_ne home (by decide)

/-- Claim C8: whenever the environment-setup step completes (required
keys present), the password file ends with content exactly the
configured secret and mode 0600 — whatever its previous content, mode,
or the process's default file-creation mode. -/
theorem c8_password_file_mode_content (config : Config) (env : Env)
    (pw : String) (xs : List String)
    (hp : config.backup_password = some pw)
    (hx : config.exclude_paths = some xs) (dflt : Nat) (st : FileView) :
    (task_setup config env).2 = none ∧
    runEffsAt (passwd_file env.home) dflt st (task_setup config env).1 =
      { content := some pw, mode := some 0o600 } := by
  have hne1 := exclude_ne_passwd env.home
  have hne2 := bashrc_ne_passwd env.home
  constructor
  · simp only [task_setup, hp, hx]
    split <;> rfl
  · simp only [task_setup, hp, hx]
    split <;> simp [runEffsAt, applyEffAt, hne1, hne2]

/-- Witness for C8 at the sample configuration, starting from a file
that existed with other content and a permissive mode. -/
theorem c8_password_file_mode_content_witness :
    (task_setup sampleConfig sampleEnv).2 = none ∧
    runEffsAt (passwd_file sampleEnv.home) 0o644
        { content := some "old", mode := some 0o644 }
        (task_setup sampleConfig sampleEnv).1 =
      { content := some "secret", mode := some 0o600 } :=
  c8_password_file_mode_content sampleConfig sampleEnv "secret" ["*.tmp"]
    rfl rfl 0o644 { content := some "old", mode := some 0o644 }

/-! ## C9: .bashrc PATH idempotence -/

/-- After the export line has been appended, the looser marker
`$HOME/bin` is present. -/
theorem bashrc_appended_has_home_bin (content : String) :
    strContains (content ++ bashrc_appended_text) "$HOME/bin" = true := by
  apply strContains_of_data_decomp _ _
    (content.data ++ ("\nexport PATH=$PATH:" : String).data)
    (("\n" : String).data)
  simp [bashrc_appended_text, export_line, String.data_append, List.append_assoc]

/-- Claim C9: the setup appends the PATH export line to `.bashrc` iff
neither the exact export line nor the substring `$HOME/bin` is present;
hence a second run never appends a duplicate. -/
theorem c9_bashrc_path_append_iff (content : String) :
    (bashrc_needs_line content = true ↔
      strContains content export_line = false ∧
      strContains content "$HOME/bin" = false) ∧
    bashrc_after content =
      (if bashrc_needs_line content then content ++ "\n" ++ export_line ++ "\n"
       else content) ∧
    bashrc_after (bashrc_after content) = bashrc_after content := by
  refine ⟨?_, ?_, ?_⟩
  · simp [bashrc_needs_line]
  · simp [bashrc_after, bashrc_appended_text, String.append_assoc]
  · by_cases h : bashrc_needs_line content
    · have h2 : bashrc_needs_line (content ++ bashrc_appended_text) = false := by
        simp [bashrc_needs_line, bashrc_appended_has_home_bin]
      simp [bashrc_after, h, h2]
    · simp [bashrc_after, h]

/-! ## C3: per-service structure of the generated script -/

set_option maxRecDepth 8000 in
theorem backup_stanza_contains_tag (s p : String) :
    strContains (backup_stanza s p) ("--tag \"" ++ s ++ "\"") = true := by
  apply strContains_of_data_decomp _ _
    (("\n\necho \"Backing up " : String).data ++ (s.data ++ ((": " : String).data ++
      (p.data ++ ("\"\n/usr/local/bin/restic -p \"$RESTIC_PASSWD\" -r \"$BACKUP_REPO\"     --host \"$HOST_TAG\"     " : String).data))))
    (("     --exclude-caches     --exclude-file=\"$RESTIC_EXCLUDE_FILE\"     backup \"" : String).data ++
      (p.data ++ (("\"\n\necho \"" : String).data ++ (s.data ++
        ((" backup complete: $(/usr/local/bin/restic -p \"$RESTIC_PASSWD\" -r \"$BACKUP_REPO\" stats --host \"$HOST_TAG\" --tag \"" : String).data ++
          (s.data ++ ("\")\"\n" : String).data))))))
  simp [backup_stanza, String.data_append, List.append_assoc]

set_option maxRecDepth 8000 in
theorem backup_stanza_contains_path (s p : String) :
    strContains (backup_stanza s p) ("backup \"" ++ p ++ "\"") = true := by
  apply strContains_of_data_decomp _ _
    (("\n\necho \"Backing up " : String).data ++ (s.data ++ ((": " : String).data ++
      (p.data ++ (("\"\n/usr/local/bin/restic -p \"$RESTIC_PASSWD\" -r \"$BACKUP_REPO\"     --host \"$HOST_TAG\"     --tag \"" : String).data ++
        (s.data ++ ("\"     --exclude-caches     --exclude-file=\"$RESTIC_EXCLUDE_FILE\"     " : String).data))))))
    (("\n\necho \"" : String).data ++ (s.data ++
      ((" backup complete: $(/usr/local/bin/restic -p \"$RESTIC_PASSWD\" -r \"$BACKUP_REPO\" stats --host \"$HOST_TAG\" --tag \"" : String).data ++
        (s.data ++ ("\")\"\n" : String).data))))
  simp [backup_stanza, String.data_append, List.append_assoc]

theorem forget_stanza_contains_tag (s : String) :
    strContains (forget_stanza s) ("--tag \"" ++ s ++ "\"") = true := by
  apply strContains_of_data_decomp _ _
    (("\n\n/usr/local/bin/restic -p \"$RESTIC_PASSWD\" -r \"$BACKUP_REPO\"     forget     --host \"$HOST_TAG\"     " : String).data)
    (("     --group-by host,tags     $KEEP_OPTIONS     --cleanup-cache || true\n" : String).data)
  simp [forget_stanza, String.data_append, List.append_assoc]

theorem empty_append_str (s : String) : "" ++ s = s :=
  strExt _ _ (by simp [String.data_append])

/-- Claim C3: the generated script is the fixed preamble, then one
backup stanza per `source_paths` entry (exactly N of them, in order),
then one retention stanza per entry (exactly N), where the stanzas for
entry `(service, path)` quote exactly that service as `--tag` and
exactly that path as the backup argument. -/
theorem c3_per_service_blocks (l : List (String × String))
    (repository healthcheck home nodename : String) :
    script_content repository healthcheck home nodename l =
      script_header repository healthcheck home nodename ++ sources_block l ++
        script_mid ++ forget_block l ++ script_footer ∧
    sources_block l = strJoin (l.map fun sp => backup_stanza sp.1 sp.2) ∧
    forget_block l = strJoin (l.map fun sp => forget_stanza sp.1) ∧
    (l.map fun sp => backup_stanza sp.1 sp.2).length = l.length ∧
    (l.map fun sp => forget_stanza sp.1).length = l.length ∧
    l.Forall (fun sp =>
      strContains (backup_stanza sp.1 sp.2) ("--tag \"" ++ sp.1 ++ "\"") = true ∧
      strContains (backup_stanza sp.1 sp.2) ("backup \"" ++ sp.2 ++ "\"") = true ∧
      strContains (forget_stanza sp.1) ("--tag \"" ++ sp.1 ++ "\"") = true) := by
  refine ⟨rfl, ?_, ?_, by simp, by simp, ?_⟩
  · rw [sources_block, foldl_append_eq_strJoin, empty_append_str]
  · rw [forget_block, foldl_append_eq_strJoin, empty_append_str]
  · rw [List.forall_iff_forall_mem]
    rintro ⟨s, p⟩ hmem
    exact ⟨backup_stanza_contains_tag s p, backup_stanza_contains_path s p,
      forget_stanza_contains_tag s⟩

/-! ## C4: cron registration, duplicate handling -/

/-- Number of crontab entries (nonempty lines) referencing the generated
script's path. -/
def cron_refs (home : String) (t : String) : Nat :=
  ((entriesOf t).filter (fun l => isSubL (job_command home).data l)).length

/-- A pre-existing table with two entries referencing the script. -/
def dupCronTable : String :=
  "0 0 * * * /root/bin/restic-custom-backup\n0 1 * * * /root/bin/restic-custom-backup\n"

/-- Counterexample to C4 as stated: over arbitrary initial tables, two
runs do not guarantee exactly one entry referencing the script path —
a table that already holds two such entries is left untouched (both runs
are no-ops), so two entries remain. -/
theorem c4_cron_duplicate_counterexample :
    cron_refs "/root"
      (new_crontab "/root" none (new_crontab "/root" none dupCronTable)) = 2 := by
  decide

/-- Amended C4: registration is idempotent — if the script path occurs
anywhere in the table the step is a no-op, otherwise exactly one line
`<schedule> <script-path>` is appended, and a repeated run changes
nothing; hence a table that did not reference the script gains exactly
one referencing line, while pre-existing references (including
duplicates) are preserved as they are. -/
theorem c4_cron_registration_idempotent (home : String) (sched : Option String)
    (cur : String) :
    (strContains cur (job_command home) = true → new_crontab home sched cur = cur) ∧
    (strContains cur (job_command home) = false →
      new_crontab home sched cur =
        cur ++ new_cron_line (sched.getD default_schedule) (job_command home)) ∧
    new_crontab home sched (new_crontab home sched cur) =
      new_crontab home sched cur := by
  refine ⟨fun h => by simp [new_crontab, h], fun h => by simp [new_crontab, h], ?_⟩
  by_cases h : strContains cur (job_command home) = true
  · simp [new_crontab, h]
  · have h' : strContains cur (job_command home) = false := by simpa using h
    have h2 : strContains
        (cur ++ new_cron_line (sched.getD default_schedule) (job_command home))
        (job_command home) = true := by
      apply strContains_of_data_decomp _ _
        (cur.data ++ ((sched.getD default_schedule).data ++ (" " : String).data))
        (("\n" : String).data)
      simp [new_cron_line, String.data_append, List.append_assoc]
    simp [new_crontab, h', h2]

/-- Witness for C4 (amended) at an empty initial table: one line is
appended and the second run is a no-op. -/
theorem c4_cron_registration_idempotent_witness :
    new_crontab "/root" none "" =
      "" ++ new_cron_line ((none : Option String).getD default_schedule)
        (job_command "/root") ∧
    new_crontab "/root" none (new_crontab "/root" none "") =
      new_crontab "/root" none "" :=
  ⟨(c4_cron_registration_idempotent "/root" none "").2.1 (by decide),
   (c4_cron_registration_idempotent "/root" none "").2.2⟩

/-! ## C10: frame property of the cron append -/

/-- A pre-existing table with no trailing newline and no reference to
the script. -/
def mergeCronTable : String := "0 5 * * * /usr/bin/uptime"

/-- Counterexample to C10 as stated: when the previous table lacks a
trailing newline, the appended text extends the table's last line
instead of forming a separate one, so the entry list is not the old
entry list plus one new entry — the old entry is modified. -/
theorem c10_cron_line_merge_counterexample :
    entriesOf (new_crontab "/root" none mergeCronTable) ≠
      entriesOf mergeCronTable ++
        [(default_schedule ++ " " ++ job_command "/root").data] := by
  decide

/-- Amended C10: when the step appends, the new table is byte-for-byte
the previous table followed by exactly one newline-terminated entry; and
whenever the previous table is empty or newline-terminated (and neither
the schedule nor the home path embeds a newline), every pre-existing
entry is preserved in order and exactly one new entry is added. -/
theorem c10_cron_append_frame (home : String) (sched : Option String)
    (cur : String) (hnc : strContains cur (job_command home) = false) :
    new_crontab home sched cur =
      cur ++ new_cron_line (sched.getD default_schedule) (job_command home) ∧
    ((cur = "" ∨ ∃ o, cur.data = o ++ ['\n']) →
      '\n' ∉ (sched.getD default_schedule).data → '\n' ∉ home.data →
      entriesOf (new_crontab home sched cur) =
        entriesOf cur ++
          [((sched.getD default_schedule) ++ " " ++ job_command home).data]) := by
  have happ : new_crontab home sched cur =
      cur ++ new_cron_line (sched.getD default_schedule) (job_command home) := by
    simp [new_crontab, hnc]
  refine ⟨happ, fun hend hs hh => ?_⟩
  have g1 : '\n' ∉ ([' '] : List Char) := by decide
  have g2 : '\n' ∉ (['/', 'b', 'i', 'n'] : List Char) := by decide
  have g3 : '\n' ∉ ("/restic-custom-backup" : String).data := by decide
  have htl : '\n' ∉ ((sched.getD default_schedule) ++ " " ++ job_command home).data := by
    intro hm
    simp only [String.data_append, job_command, bin_dir, List.mem_append] at hm
    rcases hm with (h | h) | (h | h) | h
    · exact hs h
    · exact g1 h
    · exact hh h
    · exact g2 h
    · exact g3 h
  have htl' : ∀ c ∈ ((sched.getD default_schedule) ++ " " ++ job_command home).data,
      c ≠ '\n' := fun c hc he => htl (he ▸ hc)
  have htlne : ((sched.getD default_schedule) ++ " " ++ job_command home).data ≠ [] := by
    simp [String.data_append, job_command, bin_dir]
  have hline : (cur ++ new_cron_line (sched.getD default_schedule)
        (job_command home)).data =
      cur.data ++ (((sched.getD default_schedule) ++ " " ++ job_command home).data
        ++ '\n' :: []) := by
    simp [new_cron_line, String.data_append, List.append_assoc]
  have hsplitB : splitLinesL (((sched.getD default_schedule) ++ " " ++
        job_command home).data ++ '\n' :: []) =
      ((sched.getD default_schedule) ++ " " ++ job_command home).data :: [[]] := by
    rw [splitLinesL_no_nl _ _ htl']
    simp [splitLinesL]
  obtain ⟨c0, cs0, hc0⟩ := List.exists_cons_of_ne_nil htlne
  rcases hend with hcur | ⟨o, ho⟩
  · subst hcur
    rw [happ]
    rw [entriesOf, entriesOf, hline, splitLinesL_append, hsplitB]
    simp only [hc0]
    simp [splitLinesL, initSegs, lastSeg, hdSeg, List.filter]
  · rw [happ]
    rw [entriesOf, entriesOf, hline, splitLinesL_append, hsplitB]
    have hSCne := splitLinesL_ne_nil cur.data
    have hlast : lastSeg (splitLinesL cur.data) = [] := by
      rw [ho]
      exact lastSeg_splitLinesL_nl_terminated o
    have hdecomp := segs_decomp (splitLinesL cur.data) hSCne
    rw [hlast] at hdecomp
    calc ((initSegs (splitLinesL cur.data) ++
            (lastSeg (splitLinesL cur.data) ++
              hdSeg (((sched.getD default_schedule) ++ " " ++
                job_command home).data :: [[]])) ::
            (((sched.getD default_schedule) ++ " " ++
              job_command home).data :: [[]]).tail).filter fun l => !l.isEmpty)
        = (initSegs (splitLinesL cur.data)).filter (fun l => !l.isEmpty) ++
            [((sched.getD default_schedule) ++ " " ++ job_command home).data] := by
          rw [hlast]
          simp only [hdSeg, List.tail, List.nil_append, List.filter_append]
          rw [hc0]
          simp [List.filter]
      _ = ((splitLinesL cur.data).filter fun l => !l.isEmpty) ++
            [((sched.getD default_schedule) ++ " " ++ job_command home).data] := by
          conv_rhs => rw [hdecomp]
          simp [List.filter_append, List.filter]

/-- Witness for C10 (amended) at a newline-terminated one-entry table. -/
theorem c10_cron_append_frame_witness :
    new_crontab "/root" none "0 1 * * * /usr/bin/uptime\n" =
      "0 1 * * * /usr/bin/uptime\n" ++
        new_cron_line ((none : Option String).getD default_schedule)
          (job_command "/root") ∧
    entriesOf (new_crontab "/root" none "0 1 * * * /usr/bin/uptime\n") =
      entriesOf "0 1 * * * /usr/bin/uptime\n" ++
        [(((none : Option String).getD default_schedule) ++ " " ++
          job_command "/root").data] :=
  ⟨(c10_cron_append_frame "/root" none "0 1 * * * /usr/bin/uptime\n"
      (by decide)).1,
   (c10_cron_append_frame "/root" none "0 1 * * * /usr/bin/uptime\n"
      (by decide)).2
     (Or.inr ⟨("0 1 * * * /usr/bin/uptime" : String).data, by decide⟩)
     (by decide) (by decide)⟩

/-! ## C1: missing required keys -/

theorem runMain_snd_of_install (config : Config) (env : Env) {c : Nat}
    (h : (task_install config env).2 = some c) :
    (runMain config env).2 = some c := by
  rcases hI : task_install config env with ⟨e1, x1⟩
  rw [hI] at h
  simp only at h
  subst h
  simp [runMain, hI]

theorem runMain_snd_of_setup (config : Config) (env : Env) {c : Nat}
    (h1 : (task_install config env).2 = none)
    (h2 : (task_setup config env).2 = some c) :
    (runMain config env).2 = some c := by
  rcases hI : task_install config env with ⟨e1, x1⟩
  rcases hS : task_setup config env with ⟨e2, x2⟩
  rw [hI] at h1
  rw [hS] at h2
  simp only at h1 h2
  subst h1
  subst h2
  simp [runMain, hI, hS]

theorem runMain_snd_of_backup (config : Config) (env : Env) {c : Nat}
    (h1 : (task_install config env).2 = none)
    (h2 : (task_setup config env).2 = none)
    (h3 : (task_backup_script config env).2 = some c) :
    (runMain config env).2 = some c := by
  rcases hI : task_install config env with ⟨e1, x1⟩
  rcases hS : task_setup config env with ⟨e2, x2⟩
  rcases hB : task_backup_script config env with ⟨e3, x3⟩
  rw [hI] at h1
  rw [hS] at h2
  rw [hB] at h3
  simp only at h1 h2 h3
  subst h1
  subst h2
  subst h3
  simp [runMain, hI, hS, hB]

/-- The spec's example configuration with the `repository` key removed. -/
def missingRepoConfig : Config :=
  { backup_password := some "secret", exclude_paths := some ["*.tmp"],
    repository := none,
    source_paths := some [("db", "/var/lib/db"), ("web", "/srv/web")] }

/-- Counterexample to C1 as stated: with `repository` missing, the run
does exit with a non-zero status, but only after files have been
written — the password file (with the secret) and the exclude file are
already on disk when the missing key is first accessed. -/
theorem c1_missing_key_counterexample :
    (runMain missingRepoConfig sampleEnv).2 = some 1 ∧
    Eff.writeFile (passwd_file "/root") "secret" ∈
      (runMain missingRepoConfig sampleEnv).1 ∧
    Eff.writeFile (exclude_file "/root") "*.tmp" ∈
      (runMain missingRepoConfig sampleEnv).1 := by
  decide

/-- Amended C1: a configuration missing any of the four required keys
makes the run exit with status 1 (the uncaught `KeyError` at the first
access of the missing key, or an earlier installer failure), in every
environment — but not necessarily before files are written: the side
effects of whatever ran before the missing key was touched persist. -/
theorem c1_missing_key_exits_nonzero (config : Config) (env : Env)
    (h : config.backup_password = none ∨ config.exclude_paths = none ∨
      config.repository = none ∨ config.source_paths = none) :
    (runMain config env).2 = some 1 := by
  rcases task_install_exit_cases config env with hi | hi
  · cases hbp : config.backup_password with
    | none => exact runMain_snd_of_setup config env hi (by simp [task_setup, hbp])
    | some pw =>
      cases hex : config.exclude_paths with
      | none =>
        exact runMain_snd_of_setup config env hi (by simp [task_setup, hbp, hex])
      | some xs =>
        have hS2 : (task_setup config env).2 = none := by
          by_cases hb : (env.bashrcExists && bashrc_needs_line env.bashrcContent) = true <;>
            simp [task_setup, hbp, hex, hb]
        have hG : generated_script config env = none := by
          rcases h with h | h | h | h
          · rw [hbp] at h; exact absurd h (by simp)
          · rw [hex] at h; exact absurd h (by simp)
          · simp only [generated_script, h]
            cases config.source_paths <;> rfl
          · simp [generated_script, h]
        exact runMain_snd_of_backup config env hi hS2
          (by simp [task_backup_script, hG])
  · exact runMain_snd_of_install config env hi

/-- Witness for C1 (amended) at the concrete missing-`repository`
configuration. -/
theorem c1_missing_key_exits_nonzero_witness :
    (runMain missingRepoConfig sampleEnv).2 = some 1 :=
  c1_missing_key_exits_nonzero missingRepoConfig sampleEnv
    (Or.inr (Or.inr (Or.inl rfl)))

/-! ## C2: runtime behavior of the generated script -/

/-- A run in which the `db` backup command fails with exit status 3 and
everything else succeeds. -/
def dbFailScriptEnv : ScriptEnv :=
  { repoInitialized := true, initExit := 0,
    backupExit := fun s => if s = "db" then 3 else 0,
    forgetExit := fun _ => 0 }

/-- A run in which every backup succeeds but the `db` forget command
fails with exit status 1. -/
def forgetFailScriptEnv : ScriptEnv :=
  { repoInitialized := true, initExit := 0,
    backupExit := fun _ => 0,
    forgetExit := fun s => if s = "db" then 1 else 0 }

/-- C2 (code bug): because the generated script begins with
`set -euo pipefail` while the backup commands are unguarded, the first
failing backup aborts the script immediately with that command's own
exit status: the `web` backup block and all forget blocks never run, and
the `FAILURE` flag / `exit $FAILURE` aggregation is dead code.  A forget
failure is masked by `|| true`, so `[ $? -eq 0 ]` always succeeds and
the script exits 0 — not 1 — on backup/forget failure.  Only the
success half of the claim (exit 0 when all steps succeed) holds. -/
theorem c2_script_abort_behavior :
    runScript [("db", "/var/lib/db"), ("web", "/srv/web")] dbFailScriptEnv =
      (["db"], [], 3) ∧
    runScript [("db", "/var/lib/db"), ("web", "/srv/web")] forgetFailScriptEnv =
      (["db", "web"], ["db", "web"], 0) := by
  constructor <;> rfl
